import Mathlib

/-
  Verification development for the classification-and-compilation core of the
  btp-generative-ai-hub-use-cases backends.

  Shallow embedding of:
    - src/50-indb-embeddings/backend/app/api.py
        update_categories_and_projects, compare_text_to_existing,
        get_nsman_mapped, nan_to_null, get_ippt_history, get_all_projects,
        get_project_details
    - src/51-Knowledge-Graph-Explicit-knowledge-representation-and-reasoning/
        backend/app/api.py
        translate_nl_to_new, config (GET and POST), NEW_GRAPH constants

  External services (HANA similarity/embedding oracle, LM completion, query
  executor) are modelled as explicit function parameters; machine floats that
  only ever get compared are modelled as Int scores.
-/

set_option autoImplicit false

namespace S2P

/- ===================== Python / JSON value model ===================== -/

/-- Values produced by `json.loads` / stored in Python variables.  `null`
    doubles as Python `None` (the value `dict.get` returns for a missing
    key). -/
inductive JVal where
  | null
  | str (s : String)
  | num (n : Int)
  | bool (b : Bool)
  | arr (elems : List JVal)
  | obj (fields : List (String × JVal))

/-- Python truthiness (`if value:`) for the modelled values. -/
def pyTruthy : JVal → Bool
  | JVal.null => false
  | JVal.str s => !s.data.isEmpty
  | JVal.num n => n != 0
  | JVal.bool b => b
  | JVal.arr l => !l.isEmpty
  | JVal.obj fs => !fs.isEmpty

/-- Python `str(value)` as used by f-string interpolation.  The claims only
    ever interpolate string values; the renderings of the container cases are
    placeholders never reached by any theorem below. -/
def pyStr : JVal → String
  | JVal.null => "None"
  | JVal.str s => s
  | JVal.num n => toString n
  | JVal.bool b => if b then "True" else "False"
  | JVal.arr _ => "[list]"
  | JVal.obj _ => "\x7bdict\x7d"

/-- Python `dict.get(k)`: the value under the first matching key, `None`
    (modelled as `JVal.null`) when the key is absent. -/
def dictGet (fields : List (String × JVal)) (k : String) : JVal :=
  match fields.find? (fun p => p.1 == k) with
  | some p => p.2
  | none => JVal.null

/-- Python `str.isdigit()` restricted to ASCII digits: nonempty and all
    characters are digits. -/
def pyIsDigit (s : String) : Bool :=
  !s.data.isEmpty && s.data.all Char.isDigit

/- ===================== NearestCategoryClassifier ===================== -/
/- From update_categories_and_projects, api.py lines 164-227. -/

/-- One collected row of the CATEGORIES table: the enumerate index is the
    category id, plus label and description. -/
structure CatRow where
  index : Nat
  category_label : String
  category_descr : String
deriving DecidableEq, Repr

/-- `enumerate(categories.items())` followed by the INSERT loop: category ids
    are the sequential positions 0,1,2,... of the input pairs. -/
def categoriesEnum (categories : List (String × String)) : List CatRow :=
  categories.enum.map (fun p => ⟨p.1, p.2.1, p.2.2⟩)

/-- The accumulator step of Python `max(similarities, key=lambda x: x[1])`:
    the running maximum is replaced only when a strictly larger key appears,
    so the FIRST element attaining the maximum is kept. -/
def max_step (acc y : Nat × Int) : Nat × Int :=
  if acc.2 < y.2 then y else acc

/-- `max(similarities, key=lambda x: x[1])` over the collected
    (category_id, similarity) pairs; `none` on the empty list (the code guards
    with `if similarities:`). -/
def most_similar_category (similarities : List (Nat × Int)) : Option (Nat × Int) :=
  match similarities with
  | [] => none
  | x :: xs => some (xs.foldl max_step x)

/-- The similarity oracle: the COSINE_SIMILARITY SELECT for one
    (topic, category_descr) pair.  `Except.error` models the statement
    raising a database error (which the endpoint does not catch);
    `Except.ok none` models an empty result set (row skipped by
    `if not similarity_results.empty`); `Except.ok (some v)` a returned
    score. -/
def SimOracle : Type := String → String → Except Unit (Option Int)

/-- The inner `for category in categories_df...` loop collecting
    `similarities`.  A raising oracle aborts the whole collection (the
    exception propagates). -/
def collect_similarities (o : SimOracle) (topic : String) :
    List CatRow → Except Unit (List (Nat × Int))
  | [] => Except.ok []
  | c :: rest =>
    match o topic c.category_descr with
    | Except.error e => Except.error e
    | Except.ok none => collect_similarities o topic rest
    | Except.ok (some v) =>
      match collect_similarities o topic rest with
      | Except.error e => Except.error e
      | Except.ok sims => Except.ok ((c.index, v) :: sims)

/-- One advisory row (`RULE_ID`, `TOPIC`) read from MHA_ADVISORIES4. -/
structure Advisory where
  rule_id : JVal
  topic : String

/-- The rule_id guard:
    `isinstance(rule_id, int) or (isinstance(rule_id, str) and rule_id.isdigit())`. -/
def validRuleId : JVal → Bool
  | JVal.num _ => true
  | JVal.str s => pyIsDigit s
  | _ => false

/-- Externally visible database state of the two tables the run mutates. -/
structure DBState where
  categories : List CatRow
  project_by_category : List (String × Nat)
deriving DecidableEq, Repr

/-- Processing of one advisory inside the loop: skip when the rule_id is
    invalid; collect similarities (a raising oracle aborts the request with
    the state as it stands — there is no try/except and no rollback in the
    endpoint); insert the argmax assignment when any similarity was
    collected. -/
def step_advisory (o : SimOracle) (catRows : List CatRow) (st : DBState)
    (adv : Advisory) : Except DBState DBState :=
  if validRuleId adv.rule_id then
    match collect_similarities o adv.topic catRows with
    | Except.error _ => Except.error st
    | Except.ok sims =>
      match most_similar_category sims with
      | none => Except.ok st
      | some p =>
        Except.ok { st with
          project_by_category := st.project_by_category ++ [(pyStr adv.rule_id, p.1)] }
  else Except.ok st

/-- The `for advisory in advisories_df...` loop.  `Except.error st` carries
    the externally visible state at the moment an uncaught exception escaped
    the handler. -/
def advisory_loop (o : SimOracle) (catRows : List CatRow) :
    List Advisory → DBState → Except DBState DBState
  | [], st => Except.ok st
  | a :: rest, st =>
    match step_advisory o catRows st a with
    | Except.error st2 => Except.error st2
    | Except.ok st2 => advisory_loop o catRows rest st2

/-- Outcome of the endpoint: a JSON response with HTTP code, or an uncaught
    exception (`raised`) escaping with the database state visible at that
    point. -/
inductive RunOutcome where
  | ok (st : DBState) (msg : String) (code : Nat)
  | err (st : DBState) (msg : String) (code : Nat)
  | raised (st : DBState)
deriving DecidableEq, Repr

/-- update_categories_and_projects (api.py lines 164-227): reject an empty
    category mapping with a 400 error; otherwise TRUNCATE both tables, insert
    the enumerated categories, and run the advisory loop.  Statements execute
    one by one on an autocommitting cursor: there is no transaction boundary,
    so the state reached when an exception escapes stays visible. -/
def update_categories_and_projects (o : SimOracle)
    (categories : List (String × String)) (advisories : List Advisory)
    (st : DBState) : RunOutcome :=
  if categories.isEmpty then RunOutcome.err st "No categories provided" 400
  else
    let catRows := categoriesEnum categories
    let st2 : DBState := { categories := catRows, project_by_category := [] }
    match advisory_loop o catRows advisories st2 with
    | Except.ok stf =>
      RunOutcome.ok stf "Categories and project categories updated successfully" 200
    | Except.error stf => RunOutcome.raised stf

/- ===================== SlotExtractor ===================== -/
/- From compare_text_to_existing, api.py lines 269-369. -/

/-- Result of the extraction block of compare_text_to_existing:
    `parseError` is the 400 response "Failed to parse LM extraction"
    (json.loads raised, or `.get` raised on a non-dict value, both inside the
    try); `idMissing` is the 400 response "NSMAN_ID not found" from the
    `if not nsman_id:` check; `extracted` carries the three slot values. -/
inductive ExtractOutcome where
  | parseError
  | idMissing
  | extracted (nsman_id location_name slot_date : JVal)

/-- The extraction block: the LM response is either unparsable (`none`) or
    some JSON value.  A non-object value makes `.get` raise (caught by the
    same except); on an object, the three keys are read with `dict.get`
    (missing keys become null) and a falsy nsman_id is rejected. -/
def parse_extraction (resp : Option JVal) : ExtractOutcome :=
  match resp with
  | none => ExtractOutcome.parseError
  | some (JVal.obj fs) =>
    if pyTruthy (dictGet fs "nsman_id") then
      ExtractOutcome.extracted (dictGet fs "nsman_id")
        (dictGet fs "location_name") (dictGet fs "slot_date")
    else ExtractOutcome.idMissing
  | some _ => ExtractOutcome.parseError

/- ===================== QueryTemplateCompiler (slot-based branch) ===================== -/
/- From compare_text_to_existing lines 318-364 and get_nsman_mapped lines 398-436.
   The Python f-string whitespace (newlines and indentation) is normalized to
   single spaces; the token sequence and quoting are kept exactly. -/

/-- The head of the BOOKINGS_AVAILABILITY query: raw interpolation of
    schema_name and location_name, the latter inside a single-quoted
    literal with NO escaping of quotes. -/
def slot_query_base (schema_name location_name : String) : String :=
  "SELECT \"LOCATION_NAME\", \"SLOT_DATE\", \"SLOT_TIME\" FROM "
    ++ schema_name
    ++ ".BOOKINGS_AVAILABILITY WHERE UPPER(\"LOCATION_NAME\") = UPPER(\x27"
    ++ location_name ++ "\x27)"

/-- The optional date filter appended when `if slot_date:` is truthy; again a
    raw single-quoted interpolation. -/
def slot_query_date_filter (slot_date : String) : String :=
  " AND \"SLOT_DATE\" = \x27" ++ slot_date ++ "\x27"

/-- The fixed tail of the availability query. -/
def slot_query_tail : String :=
  " ORDER BY \"SLOT_DATE\" DESC, \"SLOT_TIME\" DESC LIMIT 3"

/-- The full availability-branch query text, assembled exactly as the code
    concatenates it. -/
def slot_query (schema_name location_name : String) (slot_date : Option String) : String :=
  slot_query_base schema_name location_name
    ++ (match slot_date with
        | some d => slot_query_date_filter d
        | none => "")
    ++ slot_query_tail

/-- The fallback-branch query against MHA_ADVISORIES4, bound only to
    nsman_id (raw single-quoted interpolation), capped at 3. -/
def fallback_query (schema_name nsman_id : String) : String :=
  "SELECT \"SOLUTION\", \"SOLUTION_TWO\", \"SOLUTION_THREE\" FROM "
    ++ schema_name
    ++ ".MHA_ADVISORIES4 WHERE \"NSMAN_ID\" = \x27" ++ nsman_id ++ "\x27 LIMIT 3"

/-- The query built by get_nsman_mapped (api.py lines 407-419): raw
    single-quoted interpolation of NSMAN_ID. -/
def nsman_mapped_query (schema_name nsman_id : String) : String :=
  "SELECT \"NSMAN_ID\", \"NAME\", \"EMAIL\", \"PES_STATUS_ID\", \"RANK_CODE\", "
    ++ "\"MEANING\", \"BIRTHDAY\", \"CURRENT_GRADE\" FROM "
    ++ schema_name
    ++ ".MHA_NSMAN_MAPPED WHERE \"NSMAN_ID\" = \x27" ++ nsman_id ++ "\x27"

/-- Which branch of compare_text_to_existing produced the query. -/
inductive Branch where
  | availability
  | fallback
deriving DecidableEq, Repr

structure CompiledQuery where
  text : String
  branch : Branch
deriving DecidableEq, Repr

/-- Branch selection and query assembly of compare_text_to_existing:
    `if location_name:` (Python truthiness) chooses the availability branch,
    with the date filter added under `if slot_date:`; otherwise the fallback
    branch keyed only on nsman_id. -/
def compare_compile (schema_name : String) (nsman_id location_name slot_date : JVal) :
    CompiledQuery :=
  if pyTruthy location_name then
    { text := slot_query schema_name (pyStr location_name)
        (if pyTruthy slot_date then some (pyStr slot_date) else none),
      branch := Branch.availability }
  else
    { text := fallback_query schema_name (pyStr nsman_id),
      branch := Branch.fallback }

/-- `solution_vals[i] if len(solution_vals) > i else None`. -/
def optStr : Option String → JVal
  | some s => JVal.str s
  | none => JVal.null

/-- The response row appended in the availability branch: all four keys are
    always present, with missing ranked results as explicit nulls. -/
def availability_row (nsman_id : JVal) (solution_vals : List String) :
    List (String × JVal) :=
  [("NSMAN_ID", nsman_id),
   ("SOLUTION", optStr (solution_vals.get? 0)),
   ("SOLUTION_TWO", optStr (solution_vals.get? 1)),
   ("SOLUTION_THREE", optStr (solution_vals.get? 2))]

/-- The `f"{slot[...]} | {slot[...]} | {slot[...]}"` rendering of the
    collected availability rows. -/
def solution_vals (slots : List (String × String × String)) : List String :=
  slots.map (fun s => s.1 ++ " | " ++ s.2.1 ++ " | " ++ s.2.2)

/- ===================== Injection analysis helper ===================== -/

/-- Characters of a SQL text lying outside single-quoted string literals.
    A quote toggles literal state, so the doubled-quote escape used by the
    escaping idiom contributes nothing outside literals under this scan.
    If this differs between two compiled texts, the interpolated value
    changed the syntactic structure of the executable text. -/
def outsideLiteralsAux : Bool → List Char → List Char
  | _, [] => []
  | inLit, c :: rest =>
    if c = '\x27' then outsideLiteralsAux (!inLit) rest
    else if inLit then outsideLiteralsAux inLit rest
    else c :: outsideLiteralsAux inLit rest

/-- The non-literal (structural) part of a compiled SQL text. -/
def outsideLiterals (s : String) : String :=
  String.mk (outsideLiteralsAux false s.data)

/- ===================== translate_nl_to_new error path ===================== -/
/- From the knowledge-graph backend api.py lines 145-222. -/

/-- The external-call stages of translate_nl_to_new, in program order.
    `final_query` is assigned only when `compileQ` (the
    query_template.format / format_sql step) completes. -/
inductive Stage where
  | parseBody
  | fetchConfig
  | getOntology
  | getProperties
  | getClasses
  | topicExtract
  | sparqlGen
  | compileQ
  | executeQ
deriving DecidableEq, Repr

/-- The stages in the order the endpoint executes them. -/
def stageList : List Stage :=
  [Stage.parseBody, Stage.fetchConfig, Stage.getOntology, Stage.getProperties,
   Stage.getClasses, Stage.topicExtract, Stage.sparqlGen, Stage.compileQ,
   Stage.executeQ]

/-- What the caller observes from translate_nl_to_new: the 200 response, the
    structured 400 error built by the except block (it interpolates the
    local variable final_query), or the except block itself raising
    NameError because final_query was never assigned. -/
inductive TranslateResult where
  | ok (result final_query : String)
  | errorReport (msg final_query : String)
  | nameError
deriving DecidableEq, Repr

/-- The except block `return jsonify(\x7b...\x7d), 400`: it unconditionally
    references final_query; if that local is unbound the reference raises
    NameError. -/
def except_handler (final_query : Option String) (msg : String) : TranslateResult :=
  match final_query with
  | some q => TranslateResult.errorReport msg q
  | none => TranslateResult.nameError

/-- The success return `jsonify(\x7bresult, final_query\x7d), 200`. -/
def success_return (final_query : Option String) (result : String) : TranslateResult :=
  match final_query with
  | some q => TranslateResult.ok result q
  | none => TranslateResult.nameError

/-- Walk the stages threading the binding state of final_query; a failure
    injected at stage s transfers control to the except block with the
    bindings as they stand. -/
def translate_go (failAt : Option Stage) (fq result : String) :
    List Stage → Option String → TranslateResult
  | [], env => success_return env result
  | s :: rest, env =>
    if failAt = some s then except_handler env ("failure at " ++ toString (repr s))
    else translate_go failAt fq result rest
      (if s = Stage.compileQ then some fq else env)

/-- translate_nl_to_new as a function of which external stage (if any)
    raises, the compiled text the run would produce, and the execution
    result. -/
def translate_nl_to_new (failAt : Option Stage) (fq result : String) :
    TranslateResult :=
  translate_go failAt fq result stageList none

/- ===================== ResultNormalizer ===================== -/
/- nan_to_null (api.py lines 20-22) and the endpoints that do or do not
   apply it. -/

/-- A cell of a collected pandas DataFrame: real values, the float NaN
    sentinel, the pandas NaT sentinel, and the database NULL (already None
    in pandas object columns). -/
inductive Cell where
  | str (s : String)
  | int (n : Int)
  | nan
  | nat_sentinel
  | null
deriving DecidableEq, Repr

/-- Collected tabular result: column names plus rows of cells. -/
structure DataFrame where
  cols : List String
  rows : List (List Cell)

/-- The replacement applied by `df.replace` in nan_to_null. -/
def cleanCell : Cell → Cell
  | Cell.nan => Cell.null
  | Cell.nat_sentinel => Cell.null
  | c => c

/-- nan_to_null: convert all NaN or NaT in a DataFrame to None. -/
def nan_to_null (df : DataFrame) : DataFrame :=
  { cols := df.cols, rows := df.rows.map (List.map cleanCell) }

/-- `df.to_dict(orient=records)`: one key-value list per row, pairing the
    column names with the row cells. -/
def to_records (df : DataFrame) : List (List (String × Cell)) :=
  df.rows.map (fun r => df.cols.zip r)

/-- get_ippt_history (lines 371-396) applies nan_to_null before
    serializing. -/
def get_ippt_history_records (df : DataFrame) : List (List (String × Cell)) :=
  to_records (nan_to_null df)

/-- get_all_projects (lines 465-487) applies nan_to_null before
    serializing. -/
def get_all_projects_records (df : DataFrame) : List (List (String × Cell)) :=
  to_records (nan_to_null df)

/-- get_project_details (lines 439-462) serializes the collected rows
    directly, without nan_to_null. -/
def get_project_details_records (df : DataFrame) : List (List (String × Cell)) :=
  to_records df

/- ===================== TemplateConfig / graph URIs ===================== -/
/- From the knowledge-graph backend api.py lines 43-45, 145-222, 224-267. -/

def NEW_GRAPH : String :=
  "http://www.semanticweb.org/ontologies/2025/advisory-rdf-test"

def NEW_GRAPH_INFERRED : String :=
  "http://www.semanticweb.org/ontologies/2025/advisory-inferred-triples"

/-- One row of ONTOLOGY_CONFIG.  Column values may be NULL, hence JVal. -/
structure OntologyConfig where
  ontology_query : JVal
  property_query : JVal
  classes_query : JVal
  instructions : JVal
  prefixes : JVal
  graph : JVal
  graph_inferred : JVal
  query_example : JVal
  template : JVal
  query_template : JVal
  query_template_no_topic : JVal
  template_similarity : JVal

/-- The substitution map passed to the SPARQL-generation prompt by both
    translate_nl_to_sparql and translate_nl_to_new: the stored GRAPH and
    GRAPH_INFERRED columns are destructured into throwaway variables and the
    hard-coded NEW_GRAPH constants bound instead. -/
def sparql_generation_bindings (cfg : OntologyConfig)
    (nl_query classes properties ontology : JVal) : List (String × JVal) :=
  [("nl_query", nl_query),
   ("classes", classes),
   ("properties", properties),
   ("ontology", ontology),
   ("graph", JVal.str NEW_GRAPH),
   ("graph_inferred", JVal.str NEW_GRAPH_INFERRED),
   ("prefixes", cfg.prefixes),
   ("query_example", cfg.query_example),
   ("instructions", cfg.instructions)]

/-- The GET /config response: stored columns, except that graph and
    graph_inferred always report the NEW_GRAPH constants. -/
def config_get_response (cfg : OntologyConfig) : List (String × JVal) :=
  [("ontology_query", cfg.ontology_query),
   ("property_query", cfg.property_query),
   ("classes_query", cfg.classes_query),
   ("instructions", cfg.instructions),
   ("prefixes", cfg.prefixes),
   ("graph", JVal.str NEW_GRAPH),
   ("graph_inferred", JVal.str NEW_GRAPH_INFERRED),
   ("query_example", cfg.query_example),
   ("template", cfg.template),
   ("query_template", cfg.query_template),
   ("query_template_no_topic", cfg.query_template_no_topic),
   ("template_similarity", cfg.template_similarity)]

/-- The POST /config UPDATE: every column is overwritten from the request
    body (missing keys become NULL via data.get), including graph and
    graph_inferred. -/
def config_post_apply (data : List (String × JVal)) : OntologyConfig :=
  { ontology_query := dictGet data "ontology_query",
    property_query := dictGet data "property_query",
    classes_query := dictGet data "classes_query",
    instructions := dictGet data "instructions",
    prefixes := dictGet data "prefixes",
    graph := dictGet data "graph",
    graph_inferred := dictGet data "graph_inferred",
    query_example := dictGet data "query_example",
    template := dictGet data "template",
    query_template := dictGet data "query_template",
    query_template_no_topic := dictGet data "query_template_no_topic",
    template_similarity := dictGet data "template_similarity" }

/- ===================== Concrete example inputs ===================== -/

/-- Oracle that always returns similarity 1. -/
def oracle_unit : SimOracle := fun _ _ => Except.ok (some 1)

/-- Oracle that raises a database error exactly on topic t2. -/
def oracle_raise_t2 : SimOracle := fun t _ =>
  if t = "t2" then Except.error () else Except.ok (some 1)

/-- A prior database state with one old category and one old assignment. -/
def st_old : DBState :=
  { categories := [⟨0, "old", "olddescr"⟩], project_by_category := [("9", 3)] }

/-- A single-category input mapping. -/
def cats_ex : List (String × String) := [("c0", "d0")]

def adv1 : Advisory := ⟨JVal.str "1", "t1"⟩

def adv2 : Advisory := ⟨JVal.str "2", "t2"⟩

/-- An advisory whose RULE_ID is neither an int nor a digit-string. -/
def adv_bad_id : Advisory := ⟨JVal.str "abc", "tb"⟩

/-- An advisory whose text (TOPIC) is the empty string. -/
def adv_empty_text : Advisory := ⟨JVal.str "7", ""⟩

/-- A one-row DataFrame carrying a NaN and a database NULL. -/
def df_ex : DataFrame := { cols := ["a", "b"], rows := [[Cell.nan, Cell.null]] }

/- =====================================================================
   Theorems
   ===================================================================== -/

theorem le_max_step_left (acc y : Nat × Int) : acc.2 ≤ (max_step acc y).2 := by
  unfold max_step; split <;> omega

theorem le_max_step_right (acc y : Nat × Int) : y.2 ≤ (max_step acc y).2 := by
  unfold max_step; split <;> omega

/-- The Python max fold keeps an element of the list that attains the
    maximal key and, when the first components are strictly increasing
    along the list, has the least first component among the elements
    attaining that maximum. -/
theorem foldl_max_step_spec :
    ∀ (xs : List (Nat × Int)) (acc : Nat × Int),
      List.Pairwise (fun a b : Nat × Int => a.1 < b.1) (acc :: xs) →
      (xs.foldl max_step acc ∈ acc :: xs)
      ∧ (∀ y ∈ acc :: xs, y.2 ≤ (xs.foldl max_step acc).2)
      ∧ (∀ y ∈ acc :: xs, y.2 = (xs.foldl max_step acc).2 →
          (xs.foldl max_step acc).1 ≤ y.1) := by
  intro xs
  induction xs with
  | nil =>
    intro acc _
    refine ⟨List.mem_cons_self _ _, ?_, ?_⟩ <;> intro y hy <;>
      simp only [List.mem_singleton] at hy <;> subst hy <;> simp
  | cons y ys ih =>
    intro acc h
    rw [List.pairwise_cons] at h
    obtain ⟨hacc, hyys⟩ := h
    have hyys2 := hyys
    rw [List.pairwise_cons] at hyys2
    obtain ⟨hy, hys⟩ := hyys2
    have hfold : (y :: ys).foldl max_step acc = ys.foldl max_step (max_step acc y) := rfl
    by_cases hlt : acc.2 < y.2
    · have hstep : max_step acc y = y := if_pos hlt
      obtain ⟨m1, m2, m3⟩ := ih (max_step acc y) (by rw [hstep]; exact hyys)
      rw [hstep] at m1 m2 m3
      rw [hfold, hstep]
      refine ⟨List.mem_cons_of_mem _ m1, ?_, ?_⟩
      · intro z hz
        rcases List.mem_cons.mp hz with hz | hz
        · subst hz
          exact le_trans (le_of_lt hlt) (m2 y (List.mem_cons_self _ _))
        · exact m2 z hz
      · intro z hz hz2
        rcases List.mem_cons.mp hz with hz | hz
        · exfalso
          have h1 : y.2 ≤ (ys.foldl max_step y).2 := m2 y (List.mem_cons_self _ _)
          subst hz
          omega
        · exact m3 z hz hz2
    · have hstep : max_step acc y = acc := if_neg hlt
      have hpair2 : List.Pairwise (fun a b : Nat × Int => a.1 < b.1) (acc :: ys) := by
        rw [List.pairwise_cons]
        exact ⟨fun z hz => hacc z (List.mem_cons_of_mem _ hz), hys⟩
      obtain ⟨m1, m2, m3⟩ := ih (max_step acc y) (by rw [hstep]; exact hpair2)
      rw [hstep] at m1 m2 m3
      rw [hfold, hstep]
      refine ⟨?_, ?_, ?_⟩
      · rcases List.mem_cons.mp m1 with h1 | h1
        · rw [h1]; exact List.mem_cons_self _ _
        · exact List.mem_cons_of_mem _ (List.mem_cons_of_mem _ h1)
      · intro z hz
        rcases List.mem_cons.mp hz with hz | hz
        · rw [hz]; exact m2 acc (List.mem_cons_self _ _)
        rcases List.mem_cons.mp hz with hz | hz
        · rw [hz]
          exact le_trans (not_lt.mp hlt) (m2 acc (List.mem_cons_self _ _))
        · exact m2 z (List.mem_cons_of_mem _ hz)
      · intro z hz hz2
        rcases List.mem_cons.mp hz with hz | hz
        · rw [hz]; exact m3 acc (List.mem_cons_self _ _) (hz ▸ hz2)
        rcases List.mem_cons.mp hz with hz | hz
        · have hay : acc.1 < y.1 := hacc y (List.mem_cons_self _ _)
          have h1 : acc.2 ≤ (ys.foldl max_step acc).2 := m2 acc (List.mem_cons_self _ _)
          have h2 : y.2 ≤ acc.2 := not_lt.mp hlt
          have h3 : acc.2 = (ys.foldl max_step acc).2 := by
            subst hz; omega
          have h4 := m3 acc (List.mem_cons_self _ _) h3
          subst hz; omega
        · exact m3 z (List.mem_cons_of_mem _ hz) hz2

/-- The collected (category_id, similarity) pairs preserve the id order of
    the category rows they came from. -/
theorem collect_similarities_ids_sublist (o : SimOracle) (topic : String) :
    ∀ (rows : List CatRow) (sims : List (Nat × Int)),
      collect_similarities o topic rows = Except.ok sims →
      List.Sublist (sims.map Prod.fst) (rows.map CatRow.index) := by
  intro rows
  induction rows with
  | nil =>
    intro sims hc
    simp only [collect_similarities] at hc
    cases hc
    simp
  | cons c rest ih =>
    intro sims hc
    simp only [collect_similarities] at hc
    cases ho : o topic c.category_descr with
    | error e => rw [ho] at hc; cases hc
    | ok ov =>
      rw [ho] at hc
      cases ov with
      | none =>
        simp only at hc
        exact List.Sublist.cons _ (ih sims hc)
      | some v =>
        simp only at hc
        cases hrest : collect_similarities o topic rest with
        | error e => rw [hrest] at hc; cases hc
        | ok sims2 =>
          rw [hrest] at hc
          cases hc
          simp only [List.map_cons]
          exact List.Sublist.cons₂ _ (ih sims2 hrest)

/-- The enumerate loop assigns ids 0,1,2,... in input order. -/
theorem categoriesEnum_ids (cats : List (String × String)) :
    (categoriesEnum cats).map CatRow.index = List.range cats.length := by
  unfold categoriesEnum
  rw [List.map_map]
  have hfun : (CatRow.index ∘ fun p : Nat × (String × String) =>
      CatRow.mk p.1 p.2.1 p.2.2) = Prod.fst := rfl
  rw [hfun, List.enum_map_fst]

/-- C1 counterexample: two categories share the maximal score.  When the
    scores are collected in the order id 1 then id 2 the code picks id 1,
    but when the same tied scores arrive in the order id 2 then id 1 it
    picks id 2: the choice is NOT the lowest tied id independent of
    iteration order — Python max keeps the first maximal element in
    iteration order. -/
theorem c1_counterexample :
    most_similar_category [(1, 5), (2, 5)] = some (1, 5)
    ∧ most_similar_category [(2, 5), (1, 5)] = some (2, 5) := ⟨rfl, rfl⟩

/-- C1 amended: the code assigns the item to the FIRST category in
    score-collection order attaining the maximal similarity.  The collected
    pairs inherit the id order of the category rows iterated (ids are the
    enumerate indices 0,1,2,...), and whenever the collection order has
    strictly increasing ids, the chosen category attains the maximal score
    and has the lowest id among the tied maxima. -/
theorem c1_tie_break_amended :
    (∀ (o : SimOracle) (topic : String) (cats : List (String × String))
        (sims : List (Nat × Int)),
        collect_similarities o topic (categoriesEnum cats) = Except.ok sims →
        List.Pairwise (fun a b : Nat × Int => a.1 < b.1) sims)
    ∧ (∀ sims : List (Nat × Int), sims ≠ [] →
        List.Pairwise (fun a b : Nat × Int => a.1 < b.1) sims →
        ∃ p, most_similar_category sims = some p ∧ p ∈ sims
          ∧ (∀ q ∈ sims, q.2 ≤ p.2)
          ∧ (∀ q ∈ sims, q.2 = p.2 → p.1 ≤ q.1)) := by
  constructor
  · intro o topic cats sims hc
    have hsub := collect_similarities_ids_sublist o topic (categoriesEnum cats) sims hc
    rw [categoriesEnum_ids] at hsub
    have hrange : List.Pairwise (· < ·) (List.range cats.length) :=
      List.pairwise_lt_range _
    have hmap : List.Pairwise (· < ·) (sims.map Prod.fst) := hrange.sublist hsub
    exact List.pairwise_map.mp hmap
  · intro sims hne hp
    cases sims with
    | nil => exact absurd rfl hne
    | cons x xs =>
      obtain ⟨m1, m2, m3⟩ := foldl_max_step_spec xs x hp
      exact ⟨xs.foldl max_step x, rfl, m1, m2, m3⟩

theorem c1_tie_break_amended_witness :
    ([(0, 3), (1, 7), (2, 7)] : List (Nat × Int)) ≠ []
    ∧ List.Pairwise (fun a b : Nat × Int => a.1 < b.1) [(0, 3), (1, 7), (2, 7)]
    ∧ ∃ p, most_similar_category [(0, 3), (1, 7), (2, 7)] = some p
        ∧ p ∈ ([(0, 3), (1, 7), (2, 7)] : List (Nat × Int))
        ∧ (∀ q ∈ ([(0, 3), (1, 7), (2, 7)] : List (Nat × Int)), q.2 ≤ p.2)
        ∧ (∀ q ∈ ([(0, 3), (1, 7), (2, 7)] : List (Nat × Int)),
            q.2 = p.2 → p.1 ≤ q.1) :=
  ⟨by decide, by decide,
   c1_tie_break_amended.2 [(0, 3), (1, 7), (2, 7)] (by decide) (by decide)⟩

/-- C2: a run whose similarity statement raises on the second advisory
    (after TRUNCATE PROJECT_BY_CATEGORY and after the first advisory's
    insert already executed on the autocommitting cursor) escapes with the
    assignment set holding exactly one row — neither the complete old set
    ([("9", 3)]) nor the complete new set ([("1", 0), ("2", 0)]) a
    successful run would produce.  There is no transaction boundary,
    try/except, or rollback in the endpoint. -/
theorem c2_partial_state_eval :
    update_categories_and_projects oracle_raise_t2 cats_ex [adv1, adv2] st_old
      = RunOutcome.raised
          { categories := categoriesEnum cats_ex, project_by_category := [("1", 0)] }
    ∧ st_old.project_by_category = [("9", 3)]
    ∧ update_categories_and_projects oracle_unit cats_ex [adv1, adv2] st_old
      = RunOutcome.ok
          { categories := categoriesEnum cats_ex,
            project_by_category := [("1", 0), ("2", 0)] }
          "Categories and project categories updated successfully" 200 :=
  ⟨rfl, rfl, rfl⟩

set_option maxRecDepth 40000 in
/-- C3: the availability-branch and nsman-mapped queries interpolate the
    LM-extracted or user-supplied value into a single-quoted SQL literal
    with no escaping: a value containing a single quote changes the
    structural (outside-string-literal) part of the compiled text, while a
    quote-free value does not.  The last conjunct shows the injected value
    is exactly what compare_text_to_existing compiles into its executable
    text. -/
theorem c3_injection_eval :
    outsideLiterals (slot_query "DBUSER" "Clinic A" none)
      = outsideLiterals (slot_query "DBUSER" "x" none)
    ∧ outsideLiterals (slot_query "DBUSER" "a\x27 OR 1=1 OR \x27b" none)
      ≠ outsideLiterals (slot_query "DBUSER" "x" none)
    ∧ outsideLiterals (nsman_mapped_query "DBUSER" "1\x27 OR \x271\x27=\x271")
      ≠ outsideLiterals (nsman_mapped_query "DBUSER" "1")
    ∧ (compare_compile "DBUSER" (JVal.str "123")
        (JVal.str "a\x27 OR 1=1 OR \x27b") JVal.null).text
      = slot_query "DBUSER" "a\x27 OR 1=1 OR \x27b" none := by
  refine ⟨?_, ?_, ?_, rfl⟩ <;> decide


/-- C4 counterexample: invoked with an empty category mapping, the endpoint
    returns the 400 error "No categories provided" — it does not return an
    empty assignment set without signalling an error. -/
theorem c4_counterexample :
    update_categories_and_projects oracle_unit [] [adv1] st_old
      = RunOutcome.err st_old "No categories provided" 400 := rfl

/-- C4 amended: with an empty category list the endpoint answers with the
    400 error response "No categories provided" and leaves the stored
    assignment set untouched. -/
theorem c4_empty_categories_amended :
    ∀ (o : SimOracle) (advisories : List Advisory) (st : DBState),
      update_categories_and_projects o [] advisories st
        = RunOutcome.err st "No categories provided" 400 := by
  intro o advisories st
  rfl

/-- C5 counterexample: (1) a run containing a skipped item produces exactly
    the same outcome as the run without that item, so the batch result
    reports nothing about skipped items; (2) an item whose text is the
    empty string is NOT skipped — it receives an assignment; (3) an oracle
    failure does not cause a per-item skip: it aborts the whole batch, the
    third advisory never being processed. -/
theorem c5_counterexample :
    update_categories_and_projects oracle_unit cats_ex [adv_bad_id, adv1] st_old
      = update_categories_and_projects oracle_unit cats_ex [adv1] st_old
    ∧ update_categories_and_projects oracle_unit cats_ex [adv_empty_text] st_old
      = RunOutcome.ok
          { categories := categoriesEnum cats_ex, project_by_category := [("7", 0)] }
          "Categories and project categories updated successfully" 200
    ∧ update_categories_and_projects oracle_raise_t2 cats_ex [adv1, adv2, adv1] st_old
      = RunOutcome.raised
          { categories := categoriesEnum cats_ex, project_by_category := [("1", 0)] } :=
  ⟨rfl, rfl, rfl⟩

/-- Collecting similarities over rows on which the oracle always returns an
    empty result yields the empty list. -/
theorem collect_similarities_all_none (o : SimOracle) (topic : String) :
    ∀ rows : List CatRow,
      (∀ c ∈ rows, o topic c.category_descr = Except.ok none) →
      collect_similarities o topic rows = Except.ok [] := by
  intro rows
  induction rows with
  | nil => intro _; rfl
  | cons c rest ih =>
    intro h
    have hc := h c (List.mem_cons_self _ _)
    simp only [collect_similarities, hc]
    exact ih (fun z hz => h z (List.mem_cons_of_mem _ hz))

/-- A skipped advisory leaves the state unchanged. -/
theorem step_advisory_skip (o : SimOracle) (catRows : List CatRow)
    (st : DBState) (adv : Advisory)
    (h : validRuleId adv.rule_id = false
      ∨ ∀ c ∈ catRows, o adv.topic c.category_descr = Except.ok none) :
    step_advisory o catRows st adv = Except.ok st := by
  rcases h with h | h
  · simp [step_advisory, h]
  · by_cases hv : validRuleId adv.rule_id
    · simp [step_advisory, hv,
        collect_similarities_all_none o adv.topic catRows h,
        most_similar_category]
    · simp [step_advisory, hv]

/-- C5 amended: an advisory is skipped — the run's outcome is exactly that
    of the run without it — precisely when its RULE_ID is neither an int nor
    a digit-string, or when every similarity lookup for it returns an empty
    result.  Nothing in the outcome records the skip (so the batch result
    does not report skipped items); empty-text items are not skipped, and a
    raising oracle aborts the batch (see the counterexample). -/
theorem c5_skip_amended :
    ∀ (o : SimOracle) (cats : List (String × String)) (advs : List Advisory)
      (st : DBState) (adv : Advisory),
      (validRuleId adv.rule_id = false
        ∨ ∀ c ∈ categoriesEnum cats, o adv.topic c.category_descr = Except.ok none) →
      update_categories_and_projects o cats (adv :: advs) st
        = update_categories_and_projects o cats advs st := by
  intro o cats advs st adv h
  have hstep := step_advisory_skip o (categoriesEnum cats)
    { categories := categoriesEnum cats, project_by_category := [] } adv h
  unfold update_categories_and_projects
  cases hc : cats.isEmpty with
  | true => rfl
  | false => simp [advisory_loop, hstep]

theorem c5_skip_amended_witness :
    validRuleId adv_bad_id.rule_id = false
    ∧ update_categories_and_projects oracle_unit cats_ex [adv_bad_id] st_old
      = update_categories_and_projects oracle_unit cats_ex [] st_old :=
  ⟨by decide,
   c5_skip_amended oracle_unit cats_ex [] st_old adv_bad_id (Or.inl (by decide))⟩

/-- C6: the extraction block fails (with a 400 extraction error) exactly
    when the LM response is not parseable as the required JSON object shape
    or when the extracted id is absent or empty; on success, absent optional
    slots are represented as null.  The first conjuncts are the spec's two
    concrete contract tests (entity_id realized as nsman_id in this
    backend), including the absent-key case; the last two give the general
    success characterization. -/
theorem c6_extraction_contract :
    parse_extraction (some (JVal.obj
        [("nsman_id", JVal.str "12345"), ("location_name", JVal.null),
         ("slot_date", JVal.null)]))
      = ExtractOutcome.extracted (JVal.str "12345") JVal.null JVal.null
    ∧ parse_extraction (some (JVal.obj [("location_name", JVal.str "X")]))
      = ExtractOutcome.idMissing
    ∧ parse_extraction (some (JVal.obj [("nsman_id", JVal.str "1")]))
      = ExtractOutcome.extracted (JVal.str "1") JVal.null JVal.null
    ∧ parse_extraction none = ExtractOutcome.parseError
    ∧ (∀ resp : Option JVal,
        (∃ a b c, parse_extraction resp = ExtractOutcome.extracted a b c)
          ↔ ∃ fs, resp = some (JVal.obj fs)
              ∧ pyTruthy (dictGet fs "nsman_id") = true)
    ∧ (∀ fs, pyTruthy (dictGet fs "nsman_id") = true →
        parse_extraction (some (JVal.obj fs))
          = ExtractOutcome.extracted (dictGet fs "nsman_id")
              (dictGet fs "location_name") (dictGet fs "slot_date")) := by
  refine ⟨rfl, rfl, rfl, rfl, ?_, ?_⟩
  · intro resp
    constructor
    · rintro ⟨a, b, c, h⟩
      cases resp with
      | none => simp [parse_extraction] at h
      | some v =>
        cases v with
        | obj fs =>
          refine ⟨fs, rfl, ?_⟩
          cases hb : pyTruthy (dictGet fs "nsman_id") with
          | true => rfl
          | false => simp [parse_extraction, hb] at h
        | null => simp [parse_extraction] at h
        | str s => simp [parse_extraction] at h
        | num n => simp [parse_extraction] at h
        | bool b => simp [parse_extraction] at h
        | arr l => simp [parse_extraction] at h
    · rintro ⟨fs, rfl, ht⟩
      exact ⟨dictGet fs "nsman_id", dictGet fs "location_name",
        dictGet fs "slot_date", by simp [parse_extraction, ht]⟩
  · intro fs ht
    simp [parse_extraction, ht]

theorem c6_extraction_contract_witness :
    pyTruthy (dictGet [("nsman_id", JVal.str "9")] "nsman_id") = true
    ∧ parse_extraction (some (JVal.obj [("nsman_id", JVal.str "9")]))
      = ExtractOutcome.extracted (JVal.str "9") JVal.null JVal.null :=
  ⟨rfl, c6_extraction_contract.2.2.2.2.2 [("nsman_id", JVal.str "9")] rfl⟩

/-- C7 counterexample: the extracted location_name slot is present — the
    string value "" rather than null — yet compare_text_to_existing selects
    the fallback branch, because the code branches on Python truthiness
    (`if location_name:`) and the empty string is falsy.  So "availability
    branch if and only if location_name is present" fails as stated. -/
theorem c7_counterexample :
    (compare_compile "DBUSER" (JVal.str "123") (JVal.str "") JVal.null).branch
      = Branch.fallback
    ∧ JVal.str "" ≠ JVal.null :=
  ⟨rfl, fun h => JVal.noConfusion h⟩

/-- Splitting the fixed LIMIT-3 tail off the fallback query text. -/
theorem fallback_query_limit (schema nid : String) :
    ∃ pre, fallback_query schema nid = pre ++ " LIMIT 3" := by
  refine ⟨"SELECT \"SOLUTION\", \"SOLUTION_TWO\", \"SOLUTION_THREE\" FROM "
    ++ schema ++ ".MHA_ADVISORIES4 WHERE \"NSMAN_ID\" = \x27" ++ nid ++ "\x27", ?_⟩
  rw [fallback_query]
  rw [show ("\x27 LIMIT 3" : String) = "\x27" ++ " LIMIT 3" from rfl]
  rw [← String.append_assoc]

/-- C7 amended: the availability branch is selected iff the extracted
    location_name is truthy (present AND non-empty); the date filter is
    bound iff slot_date is truthy; the availability text always carries the
    ORDER BY date DESC, time DESC LIMIT 3 tail; otherwise the fallback
    branch is keyed only on the extracted id, also capped at 3; and the
    availability response row always carries all four keys, with missing
    2nd/3rd ranked results as explicit nulls. -/
theorem c7_branch_amended :
    (∀ (schema : String) (nid ln sd : JVal),
        (compare_compile schema nid ln sd).branch = Branch.availability
          ↔ pyTruthy ln = true)
    ∧ (∀ (schema : String) (nid ln sd : JVal),
        pyTruthy ln = true → pyTruthy sd = true →
        (compare_compile schema nid ln sd).text
          = slot_query_base schema (pyStr ln)
              ++ slot_query_date_filter (pyStr sd) ++ slot_query_tail)
    ∧ (∀ (schema : String) (nid ln sd : JVal),
        pyTruthy ln = true → pyTruthy sd = false →
        (compare_compile schema nid ln sd).text
          = slot_query_base schema (pyStr ln) ++ slot_query_tail)
    ∧ slot_query_tail = " ORDER BY \"SLOT_DATE\" DESC, \"SLOT_TIME\" DESC LIMIT 3"
    ∧ (∀ (schema : String) (nid ln sd : JVal),
        pyTruthy ln = false →
        (compare_compile schema nid ln sd).text = fallback_query schema (pyStr nid)
        ∧ ∃ pre, (compare_compile schema nid ln sd).text = pre ++ " LIMIT 3")
    ∧ (∀ (nid : JVal) (vals : List String),
        (availability_row nid vals).map Prod.fst
          = ["NSMAN_ID", "SOLUTION", "SOLUTION_TWO", "SOLUTION_THREE"]
        ∧ dictGet (availability_row nid vals) "SOLUTION_TWO" = optStr (vals.get? 1)
        ∧ dictGet (availability_row nid vals) "SOLUTION_THREE" = optStr (vals.get? 2)
        ∧ optStr none = JVal.null) := by
  refine ⟨?_, ?_, ?_, rfl, ?_, ?_⟩
  · intro schema nid ln sd
    cases hln : pyTruthy ln <;> simp [compare_compile, hln]
  · intro schema nid ln sd hln hsd
    simp [compare_compile, hln, hsd, slot_query, String.append_assoc]
  · intro schema nid ln sd hln hsd
    simp [compare_compile, hln, hsd, slot_query]
  · intro schema nid ln sd hln
    have htext : (compare_compile schema nid ln sd).text
        = fallback_query schema (pyStr nid) := by
      simp [compare_compile, hln]
    exact ⟨htext, by rw [htext]; exact fallback_query_limit schema (pyStr nid)⟩
  · intro nid vals
    exact ⟨rfl, rfl, rfl, rfl⟩

theorem c7_branch_amended_witness :
    (compare_compile "DBUSER" (JVal.str "123") (JVal.str "Clinic A")
        (JVal.str "2025-03-01")).branch = Branch.availability
    ∧ (compare_compile "DBUSER" (JVal.str "123") (JVal.str "Clinic A")
        (JVal.str "2025-03-01")).text
      = slot_query_base "DBUSER" "Clinic A"
          ++ slot_query_date_filter "2025-03-01" ++ slot_query_tail
    ∧ (compare_compile "DBUSER" (JVal.str "123") JVal.null JVal.null).text
      = fallback_query "DBUSER" "123" :=
  ⟨(c7_branch_amended.1 "DBUSER" (JVal.str "123") (JVal.str "Clinic A")
      (JVal.str "2025-03-01")).mpr rfl,
   c7_branch_amended.2.1 "DBUSER" (JVal.str "123") (JVal.str "Clinic A")
      (JVal.str "2025-03-01") rfl rfl,
   (c7_branch_amended.2.2.2.2.1 "DBUSER" (JVal.str "123") JVal.null JVal.null rfl).1⟩

/-- C8: the except block of translate_nl_to_new interpolates the local
    variable final_query unconditionally.  A failure at topic extraction —
    before final_query is ever assigned — makes the handler itself raise
    NameError instead of producing the structured error, so error reporting
    is NOT well-defined at every stage; only failures at the execute stage
    (after compilation assigned final_query) yield the structured error
    carrying the compiled text, and a fully successful run returns it. -/
theorem c8_unbound_final_query_eval :
    translate_nl_to_new (some Stage.topicExtract) "FQ" "RES"
      = TranslateResult.nameError
    ∧ translate_nl_to_new (some Stage.sparqlGen) "FQ" "RES"
      = TranslateResult.nameError
    ∧ translate_nl_to_new (some Stage.executeQ) "FQ" "RES"
      = TranslateResult.errorReport
          ("failure at " ++ toString (repr Stage.executeQ)) "FQ"
    ∧ translate_nl_to_new none "FQ" "RES" = TranslateResult.ok "RES" "FQ" :=
  ⟨rfl, rfl, rfl, rfl⟩

/-- C9 counterexample: get_project_details serializes the collected rows
    without nan_to_null, so a NaN cell flows into the response unmapped —
    normalization is not uniform across the result-returning operations. -/
theorem c9_counterexample :
    get_project_details_records df_ex = [[("a", Cell.nan), ("b", Cell.null)]]
    ∧ Cell.nan ≠ Cell.null :=
  ⟨rfl, fun h => Cell.noConfusion h⟩

/-- C9 amended: nan_to_null maps every NaN and NaT cell to an explicit
    null and every declared column key is present in every serialized row;
    get_ippt_history and get_all_projects apply it, but it is not applied
    uniformly by all result-returning operations (see the
    counterexample for get_project_details). -/
theorem c9_normalize_amended :
    ∀ df : DataFrame,
      (∀ r ∈ df.rows, r.length = df.cols.length) →
      (get_ippt_history_records df = to_records (nan_to_null df)
        ∧ get_all_projects_records df = to_records (nan_to_null df))
      ∧ ∀ rec ∈ to_records (nan_to_null df),
          rec.map Prod.fst = df.cols
          ∧ ∀ p ∈ rec, p.2 ≠ Cell.nan ∧ p.2 ≠ Cell.nat_sentinel := by
  intro df hlen
  refine ⟨⟨rfl, rfl⟩, ?_⟩
  intro rec hrec
  simp only [to_records, nan_to_null, List.mem_map] at hrec
  obtain ⟨r, hr, hrec⟩ := hrec
  obtain ⟨r0, hr0, rfl⟩ := hr
  constructor
  · rw [← hrec]
    apply List.map_fst_zip
    rw [List.length_map, hlen r0 hr0]
  · intro p hp
    rw [← hrec] at hp
    have hp2 := (List.of_mem_zip hp).2
    obtain ⟨c0, _, hc0⟩ := List.mem_map.mp hp2
    rw [← hc0]
    cases c0 <;> simp [cleanCell]

theorem c9_normalize_amended_witness :
    ([("a", Cell.null), ("b", Cell.null)] : List (String × Cell)).map Prod.fst
      = df_ex.cols :=
  ((c9_normalize_amended df_ex (by decide)).2
    [("a", Cell.null), ("b", Cell.null)] (by decide)).1

/-- C10: the stored GRAPH and GRAPH_INFERRED columns never influence any
    observable output: the SPARQL-generation prompt bindings and the GET
    /config response are identical for any two stored states differing only
    in those fields; both always carry the hard-coded NEW_GRAPH constants,
    including immediately after a POST /config wrote arbitrary different
    values into the stored columns. -/
theorem c10_graph_override :
    ∀ (cfg : OntologyConfig) (g g2 nl cls props ont : JVal)
      (data : List (String × JVal)),
      sparql_generation_bindings
          { cfg with graph := g, graph_inferred := g2 } nl cls props ont
        = sparql_generation_bindings cfg nl cls props ont
      ∧ config_get_response { cfg with graph := g, graph_inferred := g2 }
        = config_get_response cfg
      ∧ dictGet (config_get_response (config_post_apply data)) "graph"
        = JVal.str NEW_GRAPH
      ∧ dictGet (config_get_response (config_post_apply data)) "graph_inferred"
        = JVal.str NEW_GRAPH_INFERRED
      ∧ dictGet (sparql_generation_bindings (config_post_apply data) nl cls props ont)
          "graph"
        = JVal.str NEW_GRAPH := by
  intro cfg g g2 nl cls props ont data
  exact ⟨rfl, rfl, rfl, rfl, rfl⟩

end S2P

